import Mathlib

/-!
Formal model of the recruitment-dashboard analytics core (`script.js`).

The analytics layer is a set of pure functions over one immutable snapshot
(`DashboardData`).  Every definition below is a direct translation of the
corresponding JavaScript function:

* `calculateConversionFunnel`   (script.js lines 142-160)
* `calculateTimeMetrics`        (script.js lines 162-171)
* `calculateAverageDays`        (script.js lines 173-185)
* `calculatePipelineBreakdown`  (script.js lines 191-214)
* `calculateRecruiterPerformance` (script.js lines 476-505)
* `identifyCriticalIssues`      (script.js lines 72-124)

Modelling conventions:

* JavaScript numbers that can be produced by a division are modelled by
  `JsNum`: either a finite rational or one of the IEEE special values
  `NaN`, `Infinity`, `-Infinity`.  JavaScript's `x / y` for finite
  operands is `JsNum.div`, which yields `NaN` for `0 / 0` and an infinity
  for `x / 0` with `x ≠ 0`; comparisons against `NaN` are `false`, as in
  JavaScript.  Counts are natural numbers, and arithmetic that provably
  stays finite (sums, differences of dates, means over nonempty lists) is
  carried out in `ℚ`.
* A date-valued record field holds the parsed epoch-milliseconds value of
  the date string; `none` stands for an absent key, `null`, or an empty
  string (all falsy in the JavaScript truthiness tests the code uses).
* The `Viewed By` marker keeps its string value; its truthiness test is
  `truthyStr` (`none` and the empty string are falsy).
-/

inductive JsNum where
  | nan : JsNum
  | inf : JsNum
  | negInf : JsNum
  | num : ℚ → JsNum
deriving DecidableEq

namespace JsNum

/-- JavaScript division of two finite numbers: `0 / 0` is `NaN`,
`x / 0` is a signed infinity for `x ≠ 0`, otherwise exact division. -/
def div (a b : ℚ) : JsNum :=
  if b = 0 then (if a = 0 then nan else if 0 < a then inf else negInf)
  else num (a / b)

/-- JavaScript multiplication by the literal `100` (as in `count / total * 100`):
`NaN` and the infinities are absorbing. -/
def mul100 : JsNum → JsNum
  | nan => nan
  | inf => inf
  | negInf => negInf
  | num a => num (a * 100)

/-- JavaScript `x > c` for a finite literal `c`: every comparison against
`NaN` is `false`. -/
def gtC (x : JsNum) (c : ℚ) : Bool :=
  match x with
  | nan => false
  | inf => true
  | negInf => false
  | num a => decide (c < a)

end JsNum

/-- Truthiness of an optional string field, as JavaScript evaluates it:
absent (`none`) and the empty string are falsy. -/
def truthyStr : Option String → Bool
  | none => false
  | some s => !(s == "")

/-- One application record (`dashboardData.applicationDetails` entry).
Date fields carry parsed epoch milliseconds; `none` is absent/falsy. -/
structure ApplicationRecord where
  applicationDate : Option ℚ
  viewedBy : Option String
  viewedDate : Option ℚ
  interviewDate : Option ℚ
  offerDate : Option ℚ
  hireDate : Option ℚ
  jobOwner : String
  jobTitle : String

/-- One `applicantsByStatus` entry: a status label with its applicant count. -/
structure StatusAggregate where
  applicationState : String
  applicants : ℕ

/-- One `applicationsOverTime` entry: week label and distinct-applicant count. -/
structure WeeklyPoint where
  week : String
  count : ℕ

/-- One `byTeamJob` entry. -/
structure JobAggregate where
  jobName : String
  jobOwner : String
  totalApplicants : ℕ
  daysOpen : ℚ

/-- The immutable snapshot the JavaScript keeps in the `dashboardData` global. -/
structure DashboardData where
  applicationDetails : List ApplicationRecord
  applicantsByStatus : List StatusAggregate
  applicationsOverTime : List WeeklyPoint
  byTeamJob : List JobAggregate

/-- The derived conversion funnel (script.js lines 149-159). -/
structure ConversionFunnel where
  applications : ℕ
  viewed : ℕ
  viewedRate : JsNum
  interviewed : ℕ
  interviewRate : JsNum
  offered : ℕ
  offerRate : JsNum
  hired : ℕ
  hireRate : JsNum

/-- `calculateConversionFunnel` (script.js lines 142-160): count the records
whose stage marker is truthy and divide each count by the total record count. -/
def calculateConversionFunnel (data : List ApplicationRecord) : ConversionFunnel :=
  let total := data.length
  let viewed := (data.filter (fun d => truthyStr d.viewedBy)).length
  let interviewed := (data.filter (fun d => d.interviewDate.isSome)).length
  let offered := (data.filter (fun d => d.offerDate.isSome)).length
  let hired := (data.filter (fun d => d.hireDate.isSome)).length
  { applications := total
    viewed := viewed
    viewedRate := JsNum.div viewed total
    interviewed := interviewed
    interviewRate := JsNum.div interviewed total
    offered := offered
    offerRate := JsNum.div offered total
    hired := hired
    hireRate := JsNum.div hired total }

/-- The date-valued fields `calculateAverageDays` is called with. -/
inductive DateField where
  | applicationDate : DateField
  | viewedDate : DateField
  | interviewDate : DateField
  | offerDate : DateField
  | hireDate : DateField

/-- Dynamic field access `record[field]` for the date-valued fields. -/
def ApplicationRecord.dateField (r : ApplicationRecord) : DateField → Option ℚ
  | DateField.applicationDate => r.applicationDate
  | DateField.viewedDate => r.viewedDate
  | DateField.interviewDate => r.interviewDate
  | DateField.offerDate => r.offerDate
  | DateField.hireDate => r.hireDate

/-- Milliseconds per day, the divisor `1000 * 60 * 60 * 24` of script.js line 180. -/
def msPerDay : ℚ := 1000 * 60 * 60 * 24

/-- `calculateAverageDays` (script.js lines 173-185): keep the records where
both fields are present, return `0` if none qualifies, otherwise the mean of
`(end - start) / msPerDay`.  The `getD 0` defaults are never reached: the
filter guarantees both fields are present. -/
def calculateAverageDays (data : List ApplicationRecord)
    (startField endField : DateField) : ℚ :=
  let validRecords :=
    data.filter (fun d => (d.dateField startField).isSome && (d.dateField endField).isSome)
  if validRecords.length = 0 then 0
  else
    let totalDays := validRecords.foldl
      (fun sum record =>
        sum + ((record.dateField endField).getD 0 - (record.dateField startField).getD 0) / msPerDay)
      0
    totalDays / validRecords.length

/-- The four stage-duration averages (script.js lines 162-171). -/
structure TimeMetrics where
  appToView : ℚ
  viewToInterview : ℚ
  interviewToOffer : ℚ
  appToOffer : ℚ

/-- `calculateTimeMetrics` (script.js lines 162-171). -/
def calculateTimeMetrics (details : List ApplicationRecord) : TimeMetrics :=
  { appToView := calculateAverageDays details DateField.applicationDate DateField.viewedDate
    viewToInterview := calculateAverageDays details DateField.viewedDate DateField.interviewDate
    interviewToOffer := calculateAverageDays details DateField.interviewDate DateField.offerDate
    appToOffer := calculateAverageDays details DateField.applicationDate DateField.offerDate }

/-- Status labels of the `earlyStage` category (script.js line 193). -/
def earlyStageStatuses : List String :=
  ["New", "Initial Contact Attempted", "2nd Contact Attempted", "3rd Contact Attempted"]

/-- Status labels of the `activeEngagement` category (script.js line 194). -/
def activeEngagementStatuses : List String :=
  ["In Communication", "Interview Scheduled", "Interview Cancelled"]

/-- Status labels of the `advancedStage` category (script.js line 195). -/
def advancedStageStatuses : List String :=
  ["Sent Documents", "Documents Signed"]

/-- Status labels of the `closed` category (script.js line 196). -/
def closedStatuses : List String :=
  ["Not Qualified", "No Offer Made", "Sent Application"]

/-- One category bucket of the pipeline breakdown. -/
structure CategoryStat where
  count : ℕ
  percentage : JsNum

/-- The body of the `for (const [key, statuses] of ...)` loop of script.js
lines 203-211: sum the applicant counts of the entries whose label the
category's list includes, and divide by the grand total passed in. -/
def categoryStat (statusData : List StatusAggregate) (total : ℕ)
    (statuses : List String) : CategoryStat :=
  let count := (statusData.filter (fun s => statuses.contains s.applicationState)).foldl
    (fun sum s => sum + s.applicants) 0
  { count := count
    percentage := JsNum.mul100 (JsNum.div count total) }

/-- The four buckets of the pipeline breakdown. -/
structure PipelineBreakdown where
  earlyStage : CategoryStat
  activeEngagement : CategoryStat
  advancedStage : CategoryStat
  closed : CategoryStat

/-- `calculatePipelineBreakdown` (script.js lines 191-214).  Note that the
grand total of line 200 sums the applicant counts of ALL status entries,
whether or not their label appears in any category list. -/
def calculatePipelineBreakdown (statusData : List StatusAggregate) : PipelineBreakdown :=
  let total := statusData.foldl (fun sum s => sum + s.applicants) 0
  { earlyStage := categoryStat statusData total earlyStageStatuses
    activeEngagement := categoryStat statusData total activeEngagementStatuses
    advancedStage := categoryStat statusData total advancedStageStatuses
    closed := categoryStat statusData total closedStatuses }

/-- The per-owner accumulator object of script.js lines 482-494. -/
structure RecruiterCounts where
  applications : ℕ
  viewed : ℕ
  interviewed : ℕ
  offered : ℕ
deriving DecidableEq

/-- One step of the `forEach` accumulation of script.js lines 479-494: create
the owner's entry on first sight, then increment `applications` always and the
stage counters when the respective marker is truthy. -/
def accumRecruiter (stats : String → Option RecruiterCounts)
    (app : ApplicationRecord) : String → Option RecruiterCounts :=
  fun owner =>
    if app.jobOwner == owner then
      let c := (stats owner).getD ⟨0, 0, 0, 0⟩
      some ⟨c.applications + 1,
            c.viewed + (if truthyStr app.viewedBy then 1 else 0),
            c.interviewed + (if app.interviewDate.isSome then 1 else 0),
            c.offered + (if app.offerDate.isSome then 1 else 0)⟩
    else stats owner

/-- The `stats` object after the `forEach` pass, as a map from owner name to
accumulated counts (`none` for owners that occur in no record). -/
def recruiterCounts (records : List ApplicationRecord) : String → Option RecruiterCounts :=
  records.foldl accumRecruiter (fun _ => none)

/-- One row of the recruiter-performance table, counts plus derived rates. -/
structure RecruiterStats where
  applications : ℕ
  viewed : ℕ
  interviewed : ℕ
  offered : ℕ
  viewRate : JsNum
  interviewRate : JsNum
  offerRate : JsNum

/-- `calculateRecruiterPerformance` (script.js lines 476-505), read off at one
owner key: the accumulated counts with the three rates
`count / applications * 100` of lines 497-502 attached. -/
def calculateRecruiterPerformance (records : List ApplicationRecord)
    (owner : String) : Option RecruiterStats :=
  (recruiterCounts records owner).map (fun c =>
    ⟨c.applications, c.viewed, c.interviewed, c.offered,
     JsNum.mul100 (JsNum.div c.viewed c.applications),
     JsNum.mul100 (JsNum.div c.interviewed c.applications),
     JsNum.mul100 (JsNum.div c.offered c.applications)⟩)

/-- Alert severity (script.js uses the literals CRITICAL, HIGH, MEDIUM). -/
inductive Severity where
  | CRITICAL : Severity
  | HIGH : Severity
  | MEDIUM : Severity
deriving DecidableEq

/-- One alert object as pushed by `identifyCriticalIssues`. -/
structure Alert where
  severity : Severity
  icon : String
  title : String
  message : String

/-- Rendering of a rational to one decimal place, modelling
`Number.prototype.toFixed(1)` for the nonnegative finite values that reach it
(round to nearest, digits of the scaled integer). -/
def toFixed1 (q : ℚ) : String :=
  let n : ℤ := ⌊q * 10 + 1 / 2⌋
  toString (n / 10) ++ "." ++ toString (n % 10)

/-- `toFixed(1)` on a JavaScript number, special values included. -/
def jsToFixed1 : JsNum → String
  | JsNum.nan => "NaN"
  | JsNum.inf => "Infinity"
  | JsNum.negInf => "-Infinity"
  | JsNum.num q => toFixed1 q

/-- The volume-decline check of script.js lines 98-110: only with at least two
weekly points, compare the last count against half the previous one. -/
def volumeDeclineAlerts (weeklyTrend : List WeeklyPoint) : List Alert :=
  if h : 2 ≤ weeklyTrend.length then
    let lastWeek := (weeklyTrend.get ⟨weeklyTrend.length - 1, by omega⟩).count
    let prevWeek := (weeklyTrend.get ⟨weeklyTrend.length - 2, by omega⟩).count
    if (lastWeek : ℚ) < (prevWeek : ℚ) * (1 / 2) then
      [{ severity := Severity.MEDIUM
         icon := "chart-down"
         title := "Application Volume Decline"
         message := "Most recent week shows " ++ toString lastWeek
           ++ " application(s), down from " ++ toString prevWeek
           ++ ". Consider refreshing job postings or expanding sourcing channels." }]
    else []
  else []

/-- `identifyCriticalIssues` (script.js lines 72-124): the four rule checks in
authoring order, each pushing its alert when its condition holds.  The icon
strings of the source are emoji literals; they are replaced by short ASCII
names here, nothing reads them. -/
def identifyCriticalIssues (d : DashboardData) : List Alert :=
  let funnel := calculateConversionFunnel d.applicationDetails
  let pipeline := calculatePipelineBreakdown d.applicantsByStatus
  let weeklyTrend := d.applicationsOverTime
  (if funnel.hired = 0 ∧ 0 < funnel.offered then
    [{ severity := Severity.CRITICAL
       icon := "siren"
       title := "Zero Hires from Offers"
       message := toString funnel.offered
         ++ " offers have been extended but 0 hires have been completed. Immediate action required to identify and resolve onboarding bottlenecks." }]
   else [])
  ++ (if JsNum.gtC pipeline.advancedStage.percentage 40 then
    [{ severity := Severity.HIGH
       icon := "warning"
       title := "Pipeline Bottleneck Detected"
       message := jsToFixed1 pipeline.advancedStage.percentage
         ++ "% of applications are stuck in the documentation stage. Review document requirements and candidate support processes." }]
   else [])
  ++ volumeDeclineAlerts weeklyTrend
  ++ (let staleJobs := d.byTeamJob.filter (fun job => decide ((300 : ℚ) < job.daysOpen))
      if 0 < staleJobs.length then
        [{ severity := Severity.MEDIUM
           icon := "clipboard"
           title := "Stale Job Postings"
           message := toString staleJobs.length
             ++ " job posting(s) have been open for over 300 days with minimal traction. Consider closing or refreshing these positions." }]
      else [])

/-- Spec-side view of a category's count: the sum of the applicant counts of
the entries whose label the given list includes. -/
def categoryCount (statusData : List StatusAggregate) (statuses : List String) : ℕ :=
  ((statusData.filter (fun s => statuses.contains s.applicationState)).map
    (fun s => s.applicants)).sum

/-- The grand total of all applicant counts of a status collection. -/
def grandTotal (statusData : List StatusAggregate) : ℕ :=
  (statusData.map (fun s => s.applicants)).sum

/-- Sum of the four category counts of the breakdown. -/
def mappedTotal (statusData : List StatusAggregate) : ℕ :=
  categoryCount statusData earlyStageStatuses
    + categoryCount statusData activeEngagementStatuses
    + categoryCount statusData advancedStageStatuses
    + categoryCount statusData closedStatuses

/-- Every status label of the collection appears in the lookup table. -/
def allMapped (statusData : List StatusAggregate) : Prop :=
  ∀ s ∈ statusData, s.applicationState ∈ earlyStageStatuses
    ∨ s.applicationState ∈ activeEngagementStatuses
    ∨ s.applicationState ∈ advancedStageStatuses
    ∨ s.applicationState ∈ closedStatuses

/-- The string `needle` occurs contiguously inside `hay`. -/
def strContains (hay needle : String) : Prop :=
  ∃ pre post, hay = pre ++ needle ++ post

/-- A rate that is an actual number between zero and one. -/
def rateDefined01 (x : JsNum) : Prop :=
  ∃ q : ℚ, x = JsNum.num q ∧ 0 ≤ q ∧ q ≤ 1

lemma foldl_add_eq_sum {α M : Type} [AddCommMonoid M] (f : α → M) :
    ∀ (l : List α) (n : M), l.foldl (fun sum a => sum + f a) n = n + (l.map f).sum := by
  intro l
  induction l with
  | nil => intro n; simp
  | cons a t ih =>
    intro n
    simp only [List.foldl_cons, List.map_cons, List.sum_cons, ih, add_assoc]

lemma categoryStat_count (statusData : List StatusAggregate) (total : ℕ)
    (statuses : List String) :
    (categoryStat statusData total statuses).count = categoryCount statusData statuses := by
  simp [categoryStat, categoryCount, foldl_add_eq_sum]

lemma breakdown_total (statusData : List StatusAggregate) :
    statusData.foldl (fun sum s => sum + s.applicants) 0 = grandTotal statusData := by
  simp [grandTotal, foldl_add_eq_sum]

lemma categoryCount_cons (a : StatusAggregate) (l : List StatusAggregate)
    (statuses : List String) :
    categoryCount (a :: l) statuses
      = (if a.applicationState ∈ statuses then a.applicants else 0)
        + categoryCount l statuses := by
  by_cases h : a.applicationState ∈ statuses
  · simp [categoryCount, List.filter_cons, h]
  · simp [categoryCount, List.filter_cons, h]

lemma grandTotal_cons (a : StatusAggregate) (l : List StatusAggregate) :
    grandTotal (a :: l) = a.applicants + grandTotal l := by
  simp [grandTotal]

lemma categoryCount_le_grandTotal (statusData : List StatusAggregate)
    (statuses : List String) :
    categoryCount statusData statuses ≤ grandTotal statusData := by
  induction statusData with
  | nil => simp [categoryCount, grandTotal]
  | cons a l ih =>
    rw [categoryCount_cons, grandTotal_cons]
    by_cases h : a.applicationState ∈ statuses
    · simp only [h, if_true]; omega
    · simp only [h, if_false]; omega

lemma early_not_active {s : String} (h : s ∈ earlyStageStatuses) :
    s ∉ activeEngagementStatuses := by
  fin_cases h <;> decide

lemma early_not_advanced {s : String} (h : s ∈ earlyStageStatuses) :
    s ∉ advancedStageStatuses := by
  fin_cases h <;> decide

lemma early_not_closed {s : String} (h : s ∈ earlyStageStatuses) :
    s ∉ closedStatuses := by
  fin_cases h <;> decide

lemma active_not_advanced {s : String} (h : s ∈ activeEngagementStatuses) :
    s ∉ advancedStageStatuses := by
  fin_cases h <;> decide

lemma active_not_closed {s : String} (h : s ∈ activeEngagementStatuses) :
    s ∉ closedStatuses := by
  fin_cases h <;> decide

lemma advanced_not_closed {s : String} (h : s ∈ advancedStageStatuses) :
    s ∉ closedStatuses := by
  fin_cases h <;> decide

/-- A single status entry contributes its count to at most one of the four
category buckets: the four lookup lists are pairwise disjoint. -/
lemma indicator_le (s : String) (a : ℕ) :
    (if s ∈ earlyStageStatuses then a else 0)
      + (if s ∈ activeEngagementStatuses then a else 0)
      + (if s ∈ advancedStageStatuses then a else 0)
      + (if s ∈ closedStatuses then a else 0) ≤ a := by
  by_cases h1 : s ∈ earlyStageStatuses
  · rw [if_pos h1, if_neg (early_not_active h1), if_neg (early_not_advanced h1),
      if_neg (early_not_closed h1)]
    omega
  · rw [if_neg h1]
    by_cases h2 : s ∈ activeEngagementStatuses
    · rw [if_pos h2, if_neg (active_not_advanced h2), if_neg (active_not_closed h2)]
      omega
    · rw [if_neg h2]
      by_cases h3 : s ∈ advancedStageStatuses
      · rw [if_pos h3, if_neg (advanced_not_closed h3)]
        omega
      · rw [if_neg h3]
        by_cases h4 : s ∈ closedStatuses
        · rw [if_pos h4]; omega
        · rw [if_neg h4]; omega

/-- A status entry whose label the lookup table does map contributes its count
to exactly one bucket. -/
lemma indicator_eq_of_mapped (s : String) (a : ℕ)
    (h : s ∈ earlyStageStatuses ∨ s ∈ activeEngagementStatuses
      ∨ s ∈ advancedStageStatuses ∨ s ∈ closedStatuses) :
    (if s ∈ earlyStageStatuses then a else 0)
      + (if s ∈ activeEngagementStatuses then a else 0)
      + (if s ∈ advancedStageStatuses then a else 0)
      + (if s ∈ closedStatuses then a else 0) = a := by
  rcases h with h1 | h2 | h3 | h4
  · rw [if_pos h1, if_neg (early_not_active h1), if_neg (early_not_advanced h1),
      if_neg (early_not_closed h1)]
    omega
  · rw [if_neg (fun h => early_not_active h h2), if_pos h2,
      if_neg (active_not_advanced h2), if_neg (active_not_closed h2)]
    omega
  · rw [if_neg (fun h => early_not_advanced h h3),
      if_neg (fun h => active_not_advanced h h3), if_pos h3,
      if_neg (advanced_not_closed h3)]
    omega
  · rw [if_neg (fun h => early_not_closed h h4),
      if_neg (fun h => active_not_closed h h4),
      if_neg (fun h => advanced_not_closed h h4), if_pos h4]
    omega

lemma mappedTotal_cons (a : StatusAggregate) (l : List StatusAggregate) :
    mappedTotal (a :: l)
      = ((if a.applicationState ∈ earlyStageStatuses then a.applicants else 0)
          + (if a.applicationState ∈ activeEngagementStatuses then a.applicants else 0)
          + (if a.applicationState ∈ advancedStageStatuses then a.applicants else 0)
          + (if a.applicationState ∈ closedStatuses then a.applicants else 0))
        + mappedTotal l := by
  simp only [mappedTotal, categoryCount_cons]
  omega

lemma mappedTotal_le_grandTotal (statusData : List StatusAggregate) :
    mappedTotal statusData ≤ grandTotal statusData := by
  induction statusData with
  | nil => simp [mappedTotal, categoryCount, grandTotal]
  | cons a l ih =>
    rw [mappedTotal_cons, grandTotal_cons]
    have := indicator_le a.applicationState a.applicants
    omega

lemma mappedTotal_eq_grandTotal (statusData : List StatusAggregate)
    (h : allMapped statusData) :
    mappedTotal statusData = grandTotal statusData := by
  induction statusData with
  | nil => simp [mappedTotal, categoryCount, grandTotal]
  | cons a l ih =>
    rw [mappedTotal_cons, grandTotal_cons]
    have ha := indicator_eq_of_mapped a.applicationState a.applicants
      (h a (List.mem_cons_self a l))
    have hl := ih (fun s hs => h s (List.mem_cons_of_mem a hs))
    omega

lemma JsNum.div_of_ne_zero (a b : ℚ) (h : b ≠ 0) :
    JsNum.div a b = JsNum.num (a / b) := by
  simp [JsNum.div, h]

lemma JsNum.div_zero_zero : JsNum.div 0 0 = JsNum.nan := by
  simp [JsNum.div]

lemma categoryStat_percentage (statusData : List StatusAggregate) (total : ℕ)
    (statuses : List String) (h : total ≠ 0) :
    (categoryStat statusData total statuses).percentage
      = JsNum.num ((categoryCount statusData statuses : ℚ) / (total : ℚ) * 100) := by
  have hc : (statusData.filter (fun s => statuses.contains s.applicationState)).foldl
      (fun sum s => sum + s.applicants) 0 = categoryCount statusData statuses := by
    simp [categoryCount, foldl_add_eq_sum]
  have ht : ((total : ℚ)) ≠ 0 := by exact_mod_cast h
  simp only [categoryStat]
  rw [hc, JsNum.div_of_ne_zero _ _ ht]
  simp [JsNum.mul100]

lemma categoryStat_percentage_nan (statusData : List StatusAggregate)
    (statuses : List String) (h : categoryCount statusData statuses = 0) :
    (categoryStat statusData 0 statuses).percentage = JsNum.nan := by
  have hc : (statusData.filter (fun s => statuses.contains s.applicationState)).foldl
      (fun sum s => sum + s.applicants) 0 = categoryCount statusData statuses := by
    simp [categoryCount, foldl_add_eq_sum]
  simp only [categoryStat]
  rw [hc, h]
  simp [JsNum.div, JsNum.mul100]

/-- The counts a straightforward specification assigns to one owner group:
filter the records by owner, count the truthy stage markers. -/
def countOwner (records : List ApplicationRecord) (owner : String) : RecruiterCounts :=
  ⟨records.countP (fun r => r.jobOwner == owner),
   records.countP (fun r => r.jobOwner == owner && truthyStr r.viewedBy),
   records.countP (fun r => r.jobOwner == owner && r.interviewDate.isSome),
   records.countP (fun r => r.jobOwner == owner && r.offerDate.isSome)⟩

/-- Pointwise sum of two accumulator objects. -/
def addCounts (x y : RecruiterCounts) : RecruiterCounts :=
  ⟨x.applications + y.applications, x.viewed + y.viewed,
   x.interviewed + y.interviewed, x.offered + y.offered⟩

lemma countOwner_eq_zero (records : List ApplicationRecord) (owner : String)
    (h : records.countP (fun r => r.jobOwner == owner) = 0) :
    countOwner records owner = ⟨0, 0, 0, 0⟩ := by
  have hmono : ∀ q : ApplicationRecord → Bool,
      records.countP (fun r => r.jobOwner == owner && q r) = 0 := by
    intro q
    have := List.countP_mono_left (l := records)
      (p := fun r => r.jobOwner == owner && q r)
      (q := fun r => r.jobOwner == owner)
      (fun a _ ha => by
        simp only [Bool.and_eq_true] at ha
        exact ha.1)
    omega
  simp only [countOwner, h, hmono]

lemma countOwner_cons (a : ApplicationRecord) (l : List ApplicationRecord)
    (owner : String) :
    countOwner (a :: l) owner
      = if a.jobOwner == owner then
          addCounts
            ⟨1, if truthyStr a.viewedBy then 1 else 0,
             if a.interviewDate.isSome then 1 else 0,
             if a.offerDate.isSome then 1 else 0⟩
            (countOwner l owner)
        else countOwner l owner := by
  by_cases h : a.jobOwner == owner
  · simp only [countOwner, addCounts, List.countP_cons, h, Bool.true_and, if_true,
      RecruiterCounts.mk.injEq]
    omega
  · simp only [countOwner, addCounts, List.countP_cons, h, Bool.false_and]
    simp

lemma foldl_accumRecruiter (records : List ApplicationRecord) :
    ∀ (f : String → Option RecruiterCounts) (owner : String),
      (records.foldl accumRecruiter f) owner
        = if records.countP (fun r => r.jobOwner == owner) = 0 then f owner
          else some (addCounts ((f owner).getD ⟨0, 0, 0, 0⟩) (countOwner records owner)) := by
  induction records with
  | nil => intro f owner; simp [countOwner]
  | cons a l ih =>
    intro f owner
    rw [List.foldl_cons, ih, countOwner_cons]
    by_cases h : a.jobOwner == owner
    · have hcnt : (a :: l).countP (fun r => r.jobOwner == owner)
          = l.countP (fun r => r.jobOwner == owner) + 1 := by
        simp [List.countP_cons, h]
      have haccum : accumRecruiter f a owner
          = some (addCounts ((f owner).getD ⟨0, 0, 0, 0⟩)
              ⟨1, if truthyStr a.viewedBy then 1 else 0,
               if a.interviewDate.isSome then 1 else 0,
               if a.offerDate.isSome then 1 else 0⟩) := by
        simp only [accumRecruiter, h, if_pos, addCounts]
      have hne : ¬(l.countP (fun r => r.jobOwner == owner) + 1 = 0) := by omega
      by_cases hl : l.countP (fun r => r.jobOwner == owner) = 0
      · rw [if_pos hl, haccum, hcnt, countOwner_eq_zero l owner hl]
        rw [if_neg hne, if_pos h]
        simp [addCounts]
      · rw [if_neg hl, haccum, hcnt]
        rw [if_neg hne, if_pos h]
        simp only [Option.getD_some, addCounts, Option.some.injEq,
          RecruiterCounts.mk.injEq]
        omega
    · have hcnt : (a :: l).countP (fun r => r.jobOwner == owner)
          = l.countP (fun r => r.jobOwner == owner) := by
        simp [List.countP_cons, h]
      have haccum : accumRecruiter f a owner = f owner := by
        simp only [accumRecruiter, h]
        simp
      rw [hcnt, haccum, if_neg h]

lemma recruiterCounts_eq (records : List ApplicationRecord) (owner : String) :
    recruiterCounts records owner
      = if records.countP (fun r => r.jobOwner == owner) = 0 then none
        else some (countOwner records owner) := by
  rw [recruiterCounts, foldl_accumRecruiter]
  by_cases h : records.countP (fun r => r.jobOwner == owner) = 0
  · rw [if_pos h, if_pos h]
  · rw [if_neg h, if_neg h]
    simp [addCounts]

/-- The weekly series ends in two points whose last count is strictly below
half the previous count: the decomposition form of the volume-decline
condition `last < previous * 0.5` of script.js line 102. -/
def declineProp (w : List WeeklyPoint) : Prop :=
  ∃ init prevW lastW, w = init ++ [prevW, lastW] ∧ 2 * lastW.count < prevW.count

lemma half_lt_iff (a b : ℕ) : ((a : ℚ) < (b : ℚ) * (1 / 2)) ↔ 2 * a < b := by
  constructor
  · intro h
    have h2 : (2 * a : ℚ) < (b : ℚ) := by linarith
    exact_mod_cast h2
  · intro h
    have h2 : ((2 * a : ℕ) : ℚ) < (b : ℚ) := by exact_mod_cast h
    push_cast at h2
    linarith

lemma get_append_pair_fst {α : Type} (init : List α) (p la : α)
    (h : (init ++ [p, la]).length - 2 < (init ++ [p, la]).length) :
    (init ++ [p, la]).get ⟨(init ++ [p, la]).length - 2, h⟩ = p := by
  rw [List.get_eq_getElem]
  have hidx : (init ++ [p, la]).length - 2 = init.length := by simp
  simp only [hidx]
  rw [List.getElem_append_right (le_refl _)]
  simp

lemma get_append_pair_snd {α : Type} (init : List α) (p la : α)
    (h : (init ++ [p, la]).length - 1 < (init ++ [p, la]).length) :
    (init ++ [p, la]).get ⟨(init ++ [p, la]).length - 1, h⟩ = la := by
  rw [List.get_eq_getElem]
  have hidx : (init ++ [p, la]).length - 1 = init.length + 1 := by simp
  simp only [hidx]
  rw [List.getElem_append_right (by omega)]
  simp

lemma exists_append_pair {α : Type} (w : List α) (h : 2 ≤ w.length) :
    ∃ (init : List α) (p la : α), w = init ++ [p, la] := by
  rcases hw : w.reverse with _ | ⟨la, tl⟩
  · have : w = [] := by simpa using congrArg List.reverse hw
    subst this
    simp at h
  · rcases tl with _ | ⟨pr, rest⟩
    · have : w = [la] := by simpa using congrArg List.reverse hw
      subst this
      simp at h
    · refine ⟨rest.reverse, pr, la, ?_⟩
      have := congrArg List.reverse hw
      simpa using this

lemma declineProp_append_iff (init : List WeeklyPoint) (p la : WeeklyPoint) :
    declineProp (init ++ [p, la]) ↔ 2 * la.count < p.count := by
  constructor
  · rintro ⟨init', p', la', heq, hlt⟩
    obtain ⟨h1, h2⟩ := List.append_inj' heq (by rfl)
    injection h2 with hp h3
    injection h3 with hla h4
    subst hp
    subst hla
    exact hlt
  · intro h
    exact ⟨init, p, la, rfl, h⟩

lemma volumeDeclineAlerts_spec (w : List WeeklyPoint) :
    (declineProp w → ∃ m, volumeDeclineAlerts w
        = [{ severity := Severity.MEDIUM, icon := "chart-down",
             title := "Application Volume Decline", message := m }])
    ∧ (¬ declineProp w → volumeDeclineAlerts w = []) := by
  by_cases hlen : 2 ≤ w.length
  · obtain ⟨init, p, la, rfl⟩ := exists_append_pair w hlen
    have hget1 := get_append_pair_snd init p la (by simp)
    have hget2 := get_append_pair_fst init p la (by simp)
    by_cases hlt : 2 * la.count < p.count
    · constructor
      · intro _
        refine ⟨"Most recent week shows " ++ toString la.count
          ++ " application(s), down from " ++ toString p.count
          ++ ". Consider refreshing job postings or expanding sourcing channels.", ?_⟩
        simp only [volumeDeclineAlerts]
        rw [dif_pos hlen]
        simp only [hget1, hget2]
        rw [if_pos ((half_lt_iff _ _).mpr hlt)]
      · intro hn
        exact absurd ((declineProp_append_iff init p la).mpr hlt) hn
    · constructor
      · intro hd
        exact absurd ((declineProp_append_iff init p la).mp hd) hlt
      · intro _
        simp only [volumeDeclineAlerts]
        rw [dif_pos hlen]
        simp only [hget1, hget2]
        rw [if_neg (fun hc => hlt ((half_lt_iff _ _).mp hc))]
  · constructor
    · rintro ⟨init, p, la, rfl, -⟩
      exact absurd (by simp : 2 ≤ (init ++ [p, la]).length) hlen
    · intro _
      simp only [volumeDeclineAlerts]
      rw [dif_neg hlen]

lemma volumeDeclineAlerts_nil_iff (w : List WeeklyPoint) :
    volumeDeclineAlerts w = [] ↔ ¬ declineProp w := by
  constructor
  · intro h hd
    obtain ⟨m, hm⟩ := (volumeDeclineAlerts_spec w).1 hd
    rw [h] at hm
    exact List.noConfusion hm
  · exact (volumeDeclineAlerts_spec w).2

/-- The zero-hires rule condition (script.js line 79). -/
def zeroHiresFires (d : DashboardData) : Prop :=
  (calculateConversionFunnel d.applicationDetails).hired = 0
    ∧ 0 < (calculateConversionFunnel d.applicationDetails).offered

/-- The bottleneck rule condition (script.js line 89). -/
def bottleneckFires (d : DashboardData) : Prop :=
  JsNum.gtC (calculatePipelineBreakdown d.applicantsByStatus).advancedStage.percentage 40
    = true

/-- The volume-decline rule condition (script.js lines 99-102). -/
def volumeDeclineFires (d : DashboardData) : Prop :=
  declineProp d.applicationsOverTime

/-- The stale-postings rule condition (script.js lines 113-114). -/
def stalePostingsFires (d : DashboardData) : Prop :=
  ∃ job ∈ d.byTeamJob, (300 : ℚ) < job.daysOpen

lemma stale_filter_pos_iff (d : DashboardData) :
    0 < (d.byTeamJob.filter (fun job => decide ((300 : ℚ) < job.daysOpen))).length
      ↔ stalePostingsFires d := by
  constructor
  · intro h
    obtain ⟨job, hj⟩ := List.exists_mem_of_length_pos h
    rw [List.mem_filter] at hj
    exact ⟨job, hj.1, by simpa using hj.2⟩
  · rintro ⟨job, hmem, hgt⟩
    exact List.length_pos_of_mem (List.mem_filter.mpr ⟨hmem, by simpa using hgt⟩)

/-- Structure of the evaluator's output: a concatenation of four segments, one
per rule in authoring order, each empty or a singleton according to its rule's
condition. -/
lemma identifyCriticalIssues_shape (d : DashboardData) :
    ∃ zh bn vd sp : List Alert,
      identifyCriticalIssues d = zh ++ bn ++ vd ++ sp
      ∧ (zeroHiresFires d → zh
          = [{ severity := Severity.CRITICAL, icon := "siren",
               title := "Zero Hires from Offers",
               message := toString (calculateConversionFunnel d.applicationDetails).offered
                 ++ " offers have been extended but 0 hires have been completed. Immediate action required to identify and resolve onboarding bottlenecks." }])
      ∧ (¬ zeroHiresFires d → zh = [])
      ∧ (bottleneckFires d → ∃ m, bn
          = [{ severity := Severity.HIGH, icon := "warning",
               title := "Pipeline Bottleneck Detected", message := m }])
      ∧ (¬ bottleneckFires d → bn = [])
      ∧ (volumeDeclineFires d → ∃ m, vd
          = [{ severity := Severity.MEDIUM, icon := "chart-down",
               title := "Application Volume Decline", message := m }])
      ∧ (¬ volumeDeclineFires d → vd = [])
      ∧ (stalePostingsFires d → ∃ m, sp
          = [{ severity := Severity.MEDIUM, icon := "clipboard",
               title := "Stale Job Postings", message := m }])
      ∧ (¬ stalePostingsFires d → sp = []) := by
  refine ⟨if (calculateConversionFunnel d.applicationDetails).hired = 0
        ∧ 0 < (calculateConversionFunnel d.applicationDetails).offered then
      [{ severity := Severity.CRITICAL, icon := "siren",
         title := "Zero Hires from Offers",
         message := toString (calculateConversionFunnel d.applicationDetails).offered
           ++ " offers have been extended but 0 hires have been completed. Immediate action required to identify and resolve onboarding bottlenecks." }]
    else [],
    if JsNum.gtC (calculatePipelineBreakdown d.applicantsByStatus).advancedStage.percentage 40 then
      [{ severity := Severity.HIGH, icon := "warning",
         title := "Pipeline Bottleneck Detected",
         message := jsToFixed1 (calculatePipelineBreakdown d.applicantsByStatus).advancedStage.percentage
           ++ "% of applications are stuck in the documentation stage. Review document requirements and candidate support processes." }]
    else [],
    volumeDeclineAlerts d.applicationsOverTime,
    if 0 < (d.byTeamJob.filter (fun job => decide ((300 : ℚ) < job.daysOpen))).length then
      [{ severity := Severity.MEDIUM, icon := "clipboard",
         title := "Stale Job Postings",
         message := toString (d.byTeamJob.filter (fun job => decide ((300 : ℚ) < job.daysOpen))).length
           ++ " job posting(s) have been open for over 300 days with minimal traction. Consider closing or refreshing these positions." }]
    else [],
    rfl, ?_, ?_, ?_, ?_, ?_, ?_, ?_, ?_⟩
  · intro h
    rw [if_pos ⟨h.1, h.2⟩]
  · intro h
    unfold zeroHiresFires at h
    rw [if_neg h]
  · intro h
    unfold bottleneckFires at h
    exact ⟨jsToFixed1 (calculatePipelineBreakdown d.applicantsByStatus).advancedStage.percentage
      ++ "% of applications are stuck in the documentation stage. Review document requirements and candidate support processes.",
      by rw [if_pos h]⟩
  · intro h
    unfold bottleneckFires at h
    rw [if_neg h]
  · exact (volumeDeclineAlerts_spec d.applicationsOverTime).1
  · exact (volumeDeclineAlerts_spec d.applicationsOverTime).2
  · intro h
    exact ⟨toString (d.byTeamJob.filter (fun job => decide ((300 : ℚ) < job.daysOpen))).length
      ++ " job posting(s) have been open for over 300 days with minimal traction. Consider closing or refreshing these positions.",
      by rw [if_pos ((stale_filter_pos_iff d).mpr h)]⟩
  · intro h
    rw [if_neg (fun hp => h ((stale_filter_pos_iff d).mp hp))]

lemma calculateAverageDays_of_no_valid (data : List ApplicationRecord)
    (s e : DateField)
    (h : data.filter (fun d => (d.dateField s).isSome && (d.dateField e).isSome) = []) :
    calculateAverageDays data s e = 0 := by
  simp only [calculateAverageDays, h]
  rfl

lemma calculateAverageDays_mean (data : List ApplicationRecord) (s e : DateField)
    (h : data.filter (fun d => (d.dateField s).isSome && (d.dateField e).isSome) ≠ []) :
    calculateAverageDays data s e
      = ((data.filter (fun d => (d.dateField s).isSome && (d.dateField e).isSome)).map
          (fun r => ((r.dateField e).getD 0 - (r.dateField s).getD 0) / msPerDay)).sum
        / (data.filter (fun d => (d.dateField s).isSome && (d.dateField e).isSome)).length := by
  simp only [calculateAverageDays]
  rw [if_neg (fun hlen => h (List.length_eq_zero.mp hlen))]
  rw [foldl_add_eq_sum]
  simp

lemma calculateAverageDays_append_excluded (data : List ApplicationRecord)
    (r : ApplicationRecord) (s e : DateField)
    (h : ((r.dateField s).isSome && (r.dateField e).isSome) = false) :
    calculateAverageDays (data ++ [r]) s e = calculateAverageDays data s e := by
  have hr : [r].filter (fun d => (d.dateField s).isSome && (d.dateField e).isSome) = [] := by
    simp only [List.filter, h]
  simp only [calculateAverageDays, List.filter_append, hr, List.append_nil]

lemma rate01 (v t : ℕ) (hv : v ≤ t) (ht : t ≠ 0) :
    rateDefined01 (JsNum.div v t) := by
  have ht' : ((t : ℚ)) ≠ 0 := by exact_mod_cast ht
  have htpos : (0 : ℚ) < (t : ℚ) := by
    exact_mod_cast Nat.pos_of_ne_zero ht
  refine ⟨(v : ℚ) / (t : ℚ), JsNum.div_of_ne_zero _ _ ht', ?_, ?_⟩
  · positivity
  · rw [div_le_one htpos]
    exact_mod_cast hv

/-- A record with application date 2024-01-01 and viewed date 2024-01-05 (epoch
milliseconds), both endpoint fields present. -/
def recDur1 : ApplicationRecord :=
  ⟨some 1704067200000, some "Jordan Smith", some 1704412800000,
   none, none, none, "Jordan Smith", "Line Cook"⟩

/-- A record with a truthy `Viewed By` marker but no `Viewed Date`. -/
def recViewedNoDate : ApplicationRecord :=
  ⟨some 1704067200000, some "Jordan Smith", none,
   none, none, none, "Jordan Smith", "Line Cook"⟩

/-- A record of the same owner with no viewed marker at all. -/
def recNotViewed : ApplicationRecord :=
  ⟨some 1704067200000, none, none, none, none, none, "Jordan Smith", "Line Cook"⟩

/-- A record carrying an offer date and no hire date. -/
def recOffered : ApplicationRecord :=
  ⟨some 1704067200000, some "Jordan Smith", some 1704412800000,
   some 1704499200000, some 1704585600000, none, "Jordan Smith", "Line Cook"⟩

/-- Snapshot whose weekly series is `[10, 5]` and everything else empty. -/
def trendData45 : DashboardData :=
  ⟨[], [], [⟨"2025-06-02", 10⟩, ⟨"2025-06-09", 5⟩], []⟩

/-- Snapshot whose weekly series is `[10, 4]` and everything else empty. -/
def trendData44 : DashboardData :=
  ⟨[], [], [⟨"2025-06-02", 10⟩, ⟨"2025-06-09", 4⟩], []⟩

/-- Snapshot with three offered-but-not-hired applications and nothing else. -/
def offers3Data : DashboardData :=
  ⟨[recOffered, recOffered, recOffered], [], [], []⟩

/-- Status collection with one unmapped label carrying weight 10 next to a
mapped label of weight 10. -/
def sdUnmapped : List StatusAggregate :=
  [⟨"Unmapped", 10⟩, ⟨"New", 10⟩]

/-- Status collection with a single unmapped zero-count label. -/
def sdZeroUnmapped : List StatusAggregate :=
  [⟨"Unmapped", 0⟩]

lemma breakdown_zero_total_aux (statusData : List StatusAggregate)
    (h : grandTotal statusData = 0) :
    (calculatePipelineBreakdown statusData).earlyStage.count = 0
    ∧ (calculatePipelineBreakdown statusData).activeEngagement.count = 0
    ∧ (calculatePipelineBreakdown statusData).advancedStage.count = 0
    ∧ (calculatePipelineBreakdown statusData).closed.count = 0
    ∧ (calculatePipelineBreakdown statusData).earlyStage.percentage = JsNum.nan
    ∧ (calculatePipelineBreakdown statusData).activeEngagement.percentage = JsNum.nan
    ∧ (calculatePipelineBreakdown statusData).advancedStage.percentage = JsNum.nan
    ∧ (calculatePipelineBreakdown statusData).closed.percentage = JsNum.nan := by
  have hc : ∀ statuses : List String, categoryCount statusData statuses = 0 := by
    intro statuses
    have := categoryCount_le_grandTotal statusData statuses
    omega
  have hcount : ∀ statuses : List String,
      (categoryStat statusData (grandTotal statusData) statuses).count = 0 := by
    intro statuses
    rw [categoryStat_count]
    exact hc statuses
  have hperc : ∀ statuses : List String,
      (categoryStat statusData (grandTotal statusData) statuses).percentage = JsNum.nan := by
    intro statuses
    rw [h]
    exact categoryStat_percentage_nan statusData statuses (hc statuses)
  simp only [calculatePipelineBreakdown, breakdown_total]
  exact ⟨hcount _, hcount _, hcount _, hcount _, hperc _, hperc _, hperc _, hperc _⟩

lemma breakdown_percentages_eq (statusData : List StatusAggregate)
    (h : grandTotal statusData ≠ 0) :
    (calculatePipelineBreakdown statusData).earlyStage.percentage
      = JsNum.num ((categoryCount statusData earlyStageStatuses : ℚ)
          / (grandTotal statusData : ℚ) * 100)
    ∧ (calculatePipelineBreakdown statusData).activeEngagement.percentage
      = JsNum.num ((categoryCount statusData activeEngagementStatuses : ℚ)
          / (grandTotal statusData : ℚ) * 100)
    ∧ (calculatePipelineBreakdown statusData).advancedStage.percentage
      = JsNum.num ((categoryCount statusData advancedStageStatuses : ℚ)
          / (grandTotal statusData : ℚ) * 100)
    ∧ (calculatePipelineBreakdown statusData).closed.percentage
      = JsNum.num ((categoryCount statusData closedStatuses : ℚ)
          / (grandTotal statusData : ℚ) * 100) := by
  simp only [calculatePipelineBreakdown, breakdown_total]
  exact ⟨categoryStat_percentage _ _ _ h, categoryStat_percentage _ _ _ h,
    categoryStat_percentage _ _ _ h, categoryStat_percentage _ _ _ h⟩

/-- C1 counterexample: on the empty application-record collection the funnel's
viewed rate is `NaN` (JavaScript `0 / 0`), not `0` as the claim states. -/
theorem conversionFunnel_empty_viewedRate_nan :
    (calculateConversionFunnel []).viewedRate = JsNum.nan
    ∧ (calculateConversionFunnel []).viewedRate ≠ JsNum.num 0 := by
  constructor
  · simp [calculateConversionFunnel, JsNum.div]
  · intro h
    rw [(by simp [calculateConversionFunnel, JsNum.div] :
      (calculateConversionFunnel []).viewedRate = JsNum.nan)] at h
    exact JsNum.noConfusion h

/-- C1 (amended): on the empty collection `calculateConversionFunnel` raises no
exception and returns all counts `0`, but every rate is `NaN` — the division
`0 / 0` is unguarded — rather than `0`; on every nonempty collection each rate
is a defined number in `[0, 1]`. -/
theorem conversionFunnel_empty_and_nonempty :
    ((calculateConversionFunnel []).applications = 0
      ∧ (calculateConversionFunnel []).viewed = 0
      ∧ (calculateConversionFunnel []).interviewed = 0
      ∧ (calculateConversionFunnel []).offered = 0
      ∧ (calculateConversionFunnel []).hired = 0
      ∧ (calculateConversionFunnel []).viewedRate = JsNum.nan
      ∧ (calculateConversionFunnel []).interviewRate = JsNum.nan
      ∧ (calculateConversionFunnel []).offerRate = JsNum.nan
      ∧ (calculateConversionFunnel []).hireRate = JsNum.nan)
    ∧ (∀ data : List ApplicationRecord, data ≠ [] →
        rateDefined01 (calculateConversionFunnel data).viewedRate
        ∧ rateDefined01 (calculateConversionFunnel data).interviewRate
        ∧ rateDefined01 (calculateConversionFunnel data).offerRate
        ∧ rateDefined01 (calculateConversionFunnel data).hireRate) := by
  constructor
  · refine ⟨rfl, rfl, rfl, rfl, rfl, ?_, ?_, ?_, ?_⟩ <;>
      simp [calculateConversionFunnel, JsNum.div]
  · intro data hne
    have hlen : data.length ≠ 0 := fun h => hne (List.length_eq_zero.mp h)
    refine ⟨?_, ?_, ?_, ?_⟩ <;>
      exact rate01 _ _ (List.length_filter_le _ _) hlen

/-- C1 witness: the nonempty-collection half applied to a one-record list. -/
theorem conversionFunnel_nonempty_witness :
    rateDefined01 (calculateConversionFunnel [recViewedNoDate]).viewedRate :=
  (conversionFunnel_empty_and_nonempty.2 [recViewedNoDate] (by simp)).1

/-- C3 counterexample: on the empty status collection the early-stage
percentage is `NaN`, not `0` as the claim states. -/
theorem pipelineBreakdown_empty_percentage_nan :
    (calculatePipelineBreakdown []).earlyStage.percentage = JsNum.nan
    ∧ (calculatePipelineBreakdown []).earlyStage.percentage ≠ JsNum.num 0 := by
  have h : (calculatePipelineBreakdown []).earlyStage.percentage = JsNum.nan := by
    simp [calculatePipelineBreakdown, categoryStat, JsNum.div, JsNum.mul100]
  refine ⟨h, ?_⟩
  rw [h]
  intro hc
  exact JsNum.noConfusion hc

/-- C3 (amended): whenever the grand total of applicant counts is `0` — in
particular on the empty collection — `calculatePipelineBreakdown` raises no
exception and returns all four counts `0`, but all four percentages are `NaN`
(unguarded `0 / 0 * 100`), not `0`. -/
theorem pipelineBreakdown_zero_total (statusData : List StatusAggregate)
    (h : grandTotal statusData = 0) :
    (calculatePipelineBreakdown statusData).earlyStage.count = 0
    ∧ (calculatePipelineBreakdown statusData).activeEngagement.count = 0
    ∧ (calculatePipelineBreakdown statusData).advancedStage.count = 0
    ∧ (calculatePipelineBreakdown statusData).closed.count = 0
    ∧ (calculatePipelineBreakdown statusData).earlyStage.percentage = JsNum.nan
    ∧ (calculatePipelineBreakdown statusData).activeEngagement.percentage = JsNum.nan
    ∧ (calculatePipelineBreakdown statusData).advancedStage.percentage = JsNum.nan
    ∧ (calculatePipelineBreakdown statusData).closed.percentage = JsNum.nan :=
  breakdown_zero_total_aux statusData h

/-- C3 witness: the theorem applied to the empty status collection. -/
theorem pipelineBreakdown_zero_total_witness :
    (calculatePipelineBreakdown []).earlyStage.count = 0
    ∧ (calculatePipelineBreakdown []).closed.percentage = JsNum.nan := by
  have h := pipelineBreakdown_zero_total [] rfl
  exact ⟨h.1, h.2.2.2.2.2.2.2⟩

/-- C2 counterexample: with an unmapped label of weight 10 next to "New" of
weight 10, the early-stage percentage is 50 — the denominator is the full
grand total 20, not the mapped-only total 10 that would give 100. -/
theorem pipelineBreakdown_unmapped_in_denominator :
    (calculatePipelineBreakdown sdUnmapped).earlyStage.count = 10
    ∧ (calculatePipelineBreakdown sdUnmapped).earlyStage.percentage = JsNum.num 50
    ∧ (calculatePipelineBreakdown sdUnmapped).earlyStage.percentage
        ≠ JsNum.num ((10 : ℚ) / 10 * 100) := by
  have htot : grandTotal sdUnmapped = 20 := by decide
  have hcnt : categoryCount sdUnmapped earlyStageStatuses = 10 := by decide
  have hcount : (calculatePipelineBreakdown sdUnmapped).earlyStage.count = 10 := by
    simp only [calculatePipelineBreakdown, breakdown_total]
    rw [categoryStat_count]
    exact hcnt
  have hperc : (calculatePipelineBreakdown sdUnmapped).earlyStage.percentage
      = JsNum.num 50 := by
    simp only [calculatePipelineBreakdown, breakdown_total]
    rw [categoryStat_percentage sdUnmapped (grandTotal sdUnmapped) earlyStageStatuses
      (by rw [htot]; omega)]
    rw [hcnt, htot]
    norm_num
  refine ⟨hcount, hperc, ?_⟩
  rw [hperc]
  intro hc
  rw [JsNum.num.injEq] at hc
  norm_num at hc

/-- C2 (amended): status labels outside the lookup table are excluded from the
four category counts, but their applicant counts ARE included in the grand
total that the percentages divide by: whenever that grand total is nonzero,
each percentage equals category count / (sum of ALL entries' counts) × 100. -/
theorem pipelineBreakdown_denominator (statusData : List StatusAggregate) :
    ((calculatePipelineBreakdown statusData).earlyStage.count
        = categoryCount statusData earlyStageStatuses
      ∧ (calculatePipelineBreakdown statusData).activeEngagement.count
        = categoryCount statusData activeEngagementStatuses
      ∧ (calculatePipelineBreakdown statusData).advancedStage.count
        = categoryCount statusData advancedStageStatuses
      ∧ (calculatePipelineBreakdown statusData).closed.count
        = categoryCount statusData closedStatuses)
    ∧ (grandTotal statusData ≠ 0 →
        (calculatePipelineBreakdown statusData).earlyStage.percentage
          = JsNum.num ((categoryCount statusData earlyStageStatuses : ℚ)
              / (grandTotal statusData : ℚ) * 100)
        ∧ (calculatePipelineBreakdown statusData).activeEngagement.percentage
          = JsNum.num ((categoryCount statusData activeEngagementStatuses : ℚ)
              / (grandTotal statusData : ℚ) * 100)
        ∧ (calculatePipelineBreakdown statusData).advancedStage.percentage
          = JsNum.num ((categoryCount statusData advancedStageStatuses : ℚ)
              / (grandTotal statusData : ℚ) * 100)
        ∧ (calculatePipelineBreakdown statusData).closed.percentage
          = JsNum.num ((categoryCount statusData closedStatuses : ℚ)
              / (grandTotal statusData : ℚ) * 100)) := by
  constructor
  · simp only [calculatePipelineBreakdown, breakdown_total]
    exact ⟨categoryStat_count _ _ _, categoryStat_count _ _ _,
      categoryStat_count _ _ _, categoryStat_count _ _ _⟩
  · exact breakdown_percentages_eq statusData

/-- C2 witness: the percentage half applied to a nonzero-total collection. -/
theorem pipelineBreakdown_denominator_witness :
    (calculatePipelineBreakdown sdUnmapped).earlyStage.percentage
      = JsNum.num ((categoryCount sdUnmapped earlyStageStatuses : ℚ)
          / (grandTotal sdUnmapped : ℚ) * 100) :=
  ((pipelineBreakdown_denominator sdUnmapped).2 (by decide)).1

/-- C8 counterexample: a single unmapped zero-count label makes the sum of
category counts equal the grand total although not every label is in the
lookup table (refuting the claimed "equality only if"), and with grand total 0
the percentages are `NaN`, so they do not sum to at most 100 either. -/
theorem breakdown_completeness_counterexample :
    ((calculatePipelineBreakdown sdZeroUnmapped).earlyStage.count
        + (calculatePipelineBreakdown sdZeroUnmapped).activeEngagement.count
        + (calculatePipelineBreakdown sdZeroUnmapped).advancedStage.count
        + (calculatePipelineBreakdown sdZeroUnmapped).closed.count
      = grandTotal sdZeroUnmapped)
    ∧ ¬ allMapped sdZeroUnmapped
    ∧ (calculatePipelineBreakdown sdZeroUnmapped).earlyStage.percentage = JsNum.nan := by
  refine ⟨?_, ?_, ?_⟩
  · have h := breakdown_zero_total_aux sdZeroUnmapped (by decide)
    rw [h.1, h.2.1, h.2.2.1, h.2.2.2.1]
    decide
  · intro h
    have hm := h ⟨"Unmapped", 0⟩ (by simp [sdZeroUnmapped])
    exact absurd hm (by decide)
  · exact (breakdown_zero_total_aux sdZeroUnmapped (by decide)).2.2.2.2.1

/-- C8 (amended): the four category counts sum to at most the grand total of
all status aggregates, with equality whenever every label is in the lookup
table (equality can also hold with unmapped zero-count labels, so it is not an
"only if"); whenever the grand total is nonzero the four percentages are
defined numbers summing to at most 100, and to exactly 100 when every label is
mapped. -/
theorem breakdown_completeness (statusData : List StatusAggregate) :
    ((calculatePipelineBreakdown statusData).earlyStage.count
        + (calculatePipelineBreakdown statusData).activeEngagement.count
        + (calculatePipelineBreakdown statusData).advancedStage.count
        + (calculatePipelineBreakdown statusData).closed.count
      ≤ grandTotal statusData)
    ∧ (allMapped statusData →
        (calculatePipelineBreakdown statusData).earlyStage.count
          + (calculatePipelineBreakdown statusData).activeEngagement.count
          + (calculatePipelineBreakdown statusData).advancedStage.count
          + (calculatePipelineBreakdown statusData).closed.count
        = grandTotal statusData)
    ∧ (grandTotal statusData ≠ 0 →
        ∃ p1 p2 p3 p4 : ℚ,
          (calculatePipelineBreakdown statusData).earlyStage.percentage = JsNum.num p1
          ∧ (calculatePipelineBreakdown statusData).activeEngagement.percentage = JsNum.num p2
          ∧ (calculatePipelineBreakdown statusData).advancedStage.percentage = JsNum.num p3
          ∧ (calculatePipelineBreakdown statusData).closed.percentage = JsNum.num p4
          ∧ p1 + p2 + p3 + p4 ≤ 100
          ∧ (allMapped statusData → p1 + p2 + p3 + p4 = 100)) := by
  have hcounts : (calculatePipelineBreakdown statusData).earlyStage.count
        + (calculatePipelineBreakdown statusData).activeEngagement.count
        + (calculatePipelineBreakdown statusData).advancedStage.count
        + (calculatePipelineBreakdown statusData).closed.count
      = mappedTotal statusData := by
    simp only [calculatePipelineBreakdown, breakdown_total, categoryStat_count]
    rfl
  refine ⟨?_, ?_, ?_⟩
  · rw [hcounts]
    exact mappedTotal_le_grandTotal statusData
  · intro h
    rw [hcounts]
    exact mappedTotal_eq_grandTotal statusData h
  · intro h
    have hT : (0 : ℚ) < (grandTotal statusData : ℚ) := by
      exact_mod_cast Nat.pos_of_ne_zero h
    have hperc := breakdown_percentages_eq statusData h
    refine ⟨_, _, _, _, hperc.1, hperc.2.1, hperc.2.2.1, hperc.2.2.2, ?_, ?_⟩
    · have hsum : (categoryCount statusData earlyStageStatuses : ℚ)
          + (categoryCount statusData activeEngagementStatuses : ℚ)
          + (categoryCount statusData advancedStageStatuses : ℚ)
          + (categoryCount statusData closedStatuses : ℚ)
          ≤ (grandTotal statusData : ℚ) := by
        have := mappedTotal_le_grandTotal statusData
        rw [mappedTotal] at this
        exact_mod_cast this
      calc (categoryCount statusData earlyStageStatuses : ℚ) / (grandTotal statusData : ℚ) * 100
            + (categoryCount statusData activeEngagementStatuses : ℚ) / (grandTotal statusData : ℚ) * 100
            + (categoryCount statusData advancedStageStatuses : ℚ) / (grandTotal statusData : ℚ) * 100
            + (categoryCount statusData closedStatuses : ℚ) / (grandTotal statusData : ℚ) * 100
          = ((categoryCount statusData earlyStageStatuses : ℚ)
              + (categoryCount statusData activeEngagementStatuses : ℚ)
              + (categoryCount statusData advancedStageStatuses : ℚ)
              + (categoryCount statusData closedStatuses : ℚ))
            / (grandTotal statusData : ℚ) * 100 := by ring
        _ ≤ 100 := by
            have h1 : ((categoryCount statusData earlyStageStatuses : ℚ)
                + (categoryCount statusData activeEngagementStatuses : ℚ)
                + (categoryCount statusData advancedStageStatuses : ℚ)
                + (categoryCount statusData closedStatuses : ℚ))
              / (grandTotal statusData : ℚ) ≤ 1 := (div_le_one hT).mpr hsum
            linarith
    · intro hall
      have heq : (categoryCount statusData earlyStageStatuses : ℚ)
          + (categoryCount statusData activeEngagementStatuses : ℚ)
          + (categoryCount statusData advancedStageStatuses : ℚ)
          + (categoryCount statusData closedStatuses : ℚ)
          = (grandTotal statusData : ℚ) := by
        have := mappedTotal_eq_grandTotal statusData hall
        rw [mappedTotal] at this
        exact_mod_cast this
      have hT0 : (grandTotal statusData : ℚ) ≠ 0 := by positivity
      field_simp
      linarith [heq]

/-- C8 witness: the percentage half applied to an all-mapped collection. -/
theorem breakdown_completeness_witness :
    ∃ p1 p2 p3 p4 : ℚ,
      (calculatePipelineBreakdown [(⟨"New", 2⟩ : StatusAggregate)]).earlyStage.percentage
        = JsNum.num p1
      ∧ (calculatePipelineBreakdown [(⟨"New", 2⟩ : StatusAggregate)]).activeEngagement.percentage
        = JsNum.num p2
      ∧ (calculatePipelineBreakdown [(⟨"New", 2⟩ : StatusAggregate)]).advancedStage.percentage
        = JsNum.num p3
      ∧ (calculatePipelineBreakdown [(⟨"New", 2⟩ : StatusAggregate)]).closed.percentage
        = JsNum.num p4
      ∧ p1 + p2 + p3 + p4 ≤ 100
      ∧ (allMapped [(⟨"New", 2⟩ : StatusAggregate)] → p1 + p2 + p3 + p4 = 100) :=
  (breakdown_completeness [⟨"New", 2⟩]).2.2 (by decide)

/-- C7: `calculateAverageDays` averages exactly over the records that carry
both endpoint fields — it returns `0` when none does, returns the arithmetic
mean of the fractional day differences otherwise, appending a record that
lacks an endpoint never changes the result — and the spec's two-record example
(2024-01-01 to 2024-01-05 plus a record with a null end field) averages to
exactly 4 days. -/
theorem calculateAverageDays_correct :
    (∀ (data : List ApplicationRecord) (s e : DateField),
      data.filter (fun d => (d.dateField s).isSome && (d.dateField e).isSome) = [] →
        calculateAverageDays data s e = 0)
    ∧ (∀ (data : List ApplicationRecord) (s e : DateField),
      data.filter (fun d => (d.dateField s).isSome && (d.dateField e).isSome) ≠ [] →
        calculateAverageDays data s e
          = ((data.filter (fun d => (d.dateField s).isSome && (d.dateField e).isSome)).map
              (fun r => ((r.dateField e).getD 0 - (r.dateField s).getD 0) / msPerDay)).sum
            / (data.filter (fun d => (d.dateField s).isSome && (d.dateField e).isSome)).length)
    ∧ (∀ (data : List ApplicationRecord) (r : ApplicationRecord) (s e : DateField),
      ((r.dateField s).isSome && (r.dateField e).isSome) = false →
        calculateAverageDays (data ++ [r]) s e = calculateAverageDays data s e)
    ∧ calculateAverageDays [recDur1, recViewedNoDate]
        DateField.applicationDate DateField.viewedDate = 4 := by
  refine ⟨calculateAverageDays_of_no_valid, calculateAverageDays_mean,
    calculateAverageDays_append_excluded, ?_⟩
  have hfil : [recDur1, recViewedNoDate].filter
      (fun d => (d.dateField DateField.applicationDate).isSome
        && (d.dateField DateField.viewedDate).isSome) = [recDur1] := by
    simp [List.filter, recDur1, recViewedNoDate, ApplicationRecord.dateField]
  rw [calculateAverageDays_mean _ _ _ (by rw [hfil]; simp), hfil]
  simp [recDur1, ApplicationRecord.dateField, msPerDay]
  norm_num

/-- C7 witness: the exclusion half applied to a concrete excluded record. -/
theorem calculateAverageDays_correct_witness :
    calculateAverageDays ([recDur1] ++ [recViewedNoDate])
        DateField.applicationDate DateField.viewedDate
      = calculateAverageDays [recDur1] DateField.applicationDate DateField.viewedDate :=
  calculateAverageDays_correct.2.2.1 [recDur1] recViewedNoDate
    DateField.applicationDate DateField.viewedDate (by rfl)

/-- C10: a record whose `Viewed By` marker is truthy but whose `Viewed Date`
is absent is counted as viewed by the conversion funnel and by the recruiter
aggregation, yet is excluded from the appToView and viewToInterview duration
averages, which see no qualifying record at all. -/
theorem viewedBy_vs_viewedDate :
    (calculateConversionFunnel [recViewedNoDate]).viewed = 1
    ∧ (∃ s, calculateRecruiterPerformance [recViewedNoDate] "Jordan Smith" = some s
        ∧ s.viewed = 1)
    ∧ (calculateTimeMetrics [recViewedNoDate]).appToView = 0
    ∧ (calculateTimeMetrics [recViewedNoDate]).viewToInterview = 0
    ∧ (∀ data : List ApplicationRecord,
        calculateAverageDays (data ++ [recViewedNoDate])
            DateField.applicationDate DateField.viewedDate
          = calculateAverageDays data DateField.applicationDate DateField.viewedDate) := by
  refine ⟨?_, ?_, ?_, ?_, ?_⟩
  · simp [calculateConversionFunnel, List.filter, recViewedNoDate, truthyStr]
  · have hrc : recruiterCounts [recViewedNoDate] "Jordan Smith" = some ⟨1, 1, 0, 0⟩ := by
      rw [recruiterCounts_eq]
      rw [if_neg (by simp [recViewedNoDate, List.countP_cons])]
      simp [countOwner, List.countP_cons, recViewedNoDate, truthyStr]
    refine ⟨⟨1, 1, 0, 0,
      JsNum.mul100 (JsNum.div ((1 : ℕ) : ℚ) ((1 : ℕ) : ℚ)),
      JsNum.mul100 (JsNum.div ((0 : ℕ) : ℚ) ((1 : ℕ) : ℚ)),
      JsNum.mul100 (JsNum.div ((0 : ℕ) : ℚ) ((1 : ℕ) : ℚ))⟩, ?_, rfl⟩
    simp only [calculateRecruiterPerformance, hrc, Option.map_some']
  · show calculateAverageDays [recViewedNoDate]
        DateField.applicationDate DateField.viewedDate = 0
    exact calculateAverageDays_of_no_valid [recViewedNoDate]
      DateField.applicationDate DateField.viewedDate (by rfl)
  · show calculateAverageDays [recViewedNoDate]
        DateField.viewedDate DateField.interviewDate = 0
    exact calculateAverageDays_of_no_valid [recViewedNoDate]
      DateField.viewedDate DateField.interviewDate (by rfl)
  · intro data
    exact calculateAverageDays_append_excluded data recViewedNoDate _ _ (by rfl)

/-- C9: every recruiter group that exists has applications > 0 and its three
rates are the defined numbers count / applications × 100; for two same-owner
records of which exactly one is viewed, the view rate is exactly 50. -/
theorem recruiterPerformance_rates :
    (∀ (records : List ApplicationRecord) (owner : String) (s : RecruiterStats),
      calculateRecruiterPerformance records owner = some s →
        0 < s.applications
        ∧ s.viewRate = JsNum.num ((s.viewed : ℚ) / (s.applications : ℚ) * 100)
        ∧ s.interviewRate = JsNum.num ((s.interviewed : ℚ) / (s.applications : ℚ) * 100)
        ∧ s.offerRate = JsNum.num ((s.offered : ℚ) / (s.applications : ℚ) * 100))
    ∧ (∃ s, calculateRecruiterPerformance [recViewedNoDate, recNotViewed] "Jordan Smith"
          = some s ∧ s.viewRate = JsNum.num 50) := by
  have hmain : ∀ (records : List ApplicationRecord) (owner : String) (s : RecruiterStats),
      calculateRecruiterPerformance records owner = some s →
        0 < s.applications
        ∧ s.viewRate = JsNum.num ((s.viewed : ℚ) / (s.applications : ℚ) * 100)
        ∧ s.interviewRate = JsNum.num ((s.interviewed : ℚ) / (s.applications : ℚ) * 100)
        ∧ s.offerRate = JsNum.num ((s.offered : ℚ) / (s.applications : ℚ) * 100) := by
    intro records owner s h
    rw [calculateRecruiterPerformance, recruiterCounts_eq] at h
    by_cases hc : records.countP (fun r => r.jobOwner == owner) = 0
    · rw [if_pos hc] at h
      exact absurd h (by simp)
    · rw [if_neg hc] at h
      simp only [Option.map_some', Option.some.injEq] at h
      have happ : (countOwner records owner).applications
          = records.countP (fun r => r.jobOwner == owner) := rfl
      have hpos : 0 < (countOwner records owner).applications := by
        rw [happ]; omega
      have hratene : (((countOwner records owner).applications : ℕ) : ℚ) ≠ 0 := by
        exact_mod_cast Nat.pos_iff_ne_zero.mp hpos
      subst h
      refine ⟨hpos, ?_, ?_, ?_⟩ <;>
        simp [JsNum.div_of_ne_zero _ _ hratene, JsNum.mul100]
  exact ⟨hmain, by
    have hcnt : recruiterCounts [recViewedNoDate, recNotViewed] "Jordan Smith"
        = some ⟨2, 1, 0, 0⟩ := by
      rw [recruiterCounts_eq]
      rw [if_neg (by simp [recViewedNoDate, recNotViewed, List.countP_cons])]
      simp [countOwner, List.countP_cons, recViewedNoDate, recNotViewed, truthyStr]
    refine ⟨⟨2, 1, 0, 0,
      JsNum.mul100 (JsNum.div ((1 : ℕ) : ℚ) ((2 : ℕ) : ℚ)),
      JsNum.mul100 (JsNum.div ((0 : ℕ) : ℚ) ((2 : ℕ) : ℚ)),
      JsNum.mul100 (JsNum.div ((0 : ℕ) : ℚ) ((2 : ℕ) : ℚ))⟩, ?_, ?_⟩
    · simp only [calculateRecruiterPerformance, hcnt, Option.map_some']
    · show JsNum.mul100 (JsNum.div ((1 : ℕ) : ℚ) ((2 : ℕ) : ℚ)) = JsNum.num 50
      rw [JsNum.div_of_ne_zero _ _ (by norm_num)]
      simp only [JsNum.mul100, JsNum.num.injEq]
      norm_num⟩

/-- C9 witness: the rate shape applied to a concrete two-record group. -/
theorem recruiterPerformance_rates_witness :
    ∃ s : RecruiterStats,
      calculateRecruiterPerformance [recViewedNoDate, recNotViewed] "Jordan Smith" = some s
      ∧ 0 < s.applications
      ∧ s.viewRate = JsNum.num ((s.viewed : ℚ) / (s.applications : ℚ) * 100) := by
  obtain ⟨s, hs, hrate⟩ := recruiterPerformance_rates.2
  have h := recruiterPerformance_rates.1 [recViewedNoDate, recNotViewed] "Jordan Smith" s hs
  exact ⟨s, hs, h.1, h.2.1⟩

/-- C6: for every snapshot the evaluator's output lists the fired alerts in
the fixed authoring order — its title sequence is a subsequence of the rule
title sequence zero-hires, bottleneck, volume-decline, stale-postings, never a
severity sort — and the output is the empty list exactly when none of the four
rule conditions holds. -/
theorem identifyCriticalIssues_order_and_empty (d : DashboardData) :
    ((identifyCriticalIssues d).map Alert.title).Sublist
        ["Zero Hires from Offers", "Pipeline Bottleneck Detected",
         "Application Volume Decline", "Stale Job Postings"]
    ∧ (identifyCriticalIssues d = []
        ↔ ¬ zeroHiresFires d ∧ ¬ bottleneckFires d
          ∧ ¬ volumeDeclineFires d ∧ ¬ stalePostingsFires d) := by
  obtain ⟨zh, bn, vd, sp, heq, h1p, h1n, h2p, h2n, h3p, h3n, h4p, h4n⟩ :=
    identifyCriticalIssues_shape d
  have hzh : (zh.map Alert.title).Sublist ["Zero Hires from Offers"] := by
    by_cases h : zeroHiresFires d
    · rw [h1p h]; exact List.Sublist.refl _
    · rw [h1n h]; exact List.nil_sublist _
  have hbn : (bn.map Alert.title).Sublist ["Pipeline Bottleneck Detected"] := by
    by_cases h : bottleneckFires d
    · obtain ⟨m, hm⟩ := h2p h
      rw [hm]; exact List.Sublist.refl _
    · rw [h2n h]; exact List.nil_sublist _
  have hvd : (vd.map Alert.title).Sublist ["Application Volume Decline"] := by
    by_cases h : volumeDeclineFires d
    · obtain ⟨m, hm⟩ := h3p h
      rw [hm]; exact List.Sublist.refl _
    · rw [h3n h]; exact List.nil_sublist _
  have hsp : (sp.map Alert.title).Sublist ["Stale Job Postings"] := by
    by_cases h : stalePostingsFires d
    · obtain ⟨m, hm⟩ := h4p h
      rw [hm]; exact List.Sublist.refl _
    · rw [h4n h]; exact List.nil_sublist _
  constructor
  · rw [heq]
    have hassoc : (["Zero Hires from Offers", "Pipeline Bottleneck Detected",
        "Application Volume Decline", "Stale Job Postings"] : List String)
        = (["Zero Hires from Offers"] ++ ["Pipeline Bottleneck Detected"]
            ++ ["Application Volume Decline"]) ++ ["Stale Job Postings"] := rfl
    rw [hassoc, List.map_append, List.map_append, List.map_append]
    exact ((hzh.append hbn).append hvd).append hsp
  · rw [heq]
    constructor
    · intro h
      simp only [List.append_eq_nil] at h
      obtain ⟨⟨⟨e1, e2⟩, e3⟩, e4⟩ := h
      refine ⟨?_, ?_, ?_, ?_⟩
      · intro hz
        rw [h1p hz] at e1
        exact List.noConfusion e1
      · intro hb
        obtain ⟨m, hm⟩ := h2p hb
        rw [hm] at e2
        exact List.noConfusion e2
      · intro hv
        obtain ⟨m, hm⟩ := h3p hv
        rw [hm] at e3
        exact List.noConfusion e3
      · intro hs
        obtain ⟨m, hm⟩ := h4p hs
        rw [hm] at e4
        exact List.noConfusion e4
    · rintro ⟨n1, n2, n3, n4⟩
      rw [h1n n1, h2n n2, h3n n3, h4n n4]
      rfl

/-- C4: the volume-decline alert (severity MEDIUM) appears in the evaluator
output iff the weekly series has at least two points and the last count is
strictly below half the previous one; weekly counts [10, 5] fire no alert at
all, while [10, 4] fire the decline alert. -/
theorem volumeDecline_iff :
    (∀ d : DashboardData,
      (∃ a ∈ identifyCriticalIssues d,
          a.title = "Application Volume Decline" ∧ a.severity = Severity.MEDIUM)
        ↔ declineProp d.applicationsOverTime)
    ∧ identifyCriticalIssues trendData45 = []
    ∧ (∃ a ∈ identifyCriticalIssues trendData44,
        a.title = "Application Volume Decline" ∧ a.severity = Severity.MEDIUM) := by
  have hmain : ∀ d : DashboardData,
      (∃ a ∈ identifyCriticalIssues d,
          a.title = "Application Volume Decline" ∧ a.severity = Severity.MEDIUM)
        ↔ declineProp d.applicationsOverTime := by
    intro d
    obtain ⟨zh, bn, vd, sp, heq, h1p, h1n, h2p, h2n, h3p, h3n, h4p, h4n⟩ :=
      identifyCriticalIssues_shape d
    constructor
    · rintro ⟨a, hmem, htitle, hsev⟩
      rw [heq] at hmem
      simp only [List.mem_append] at hmem
      rcases hmem with ((hm | hm) | hm) | hm
      · by_cases hz : zeroHiresFires d
        · rw [h1p hz] at hm
          simp only [List.mem_singleton] at hm
          subst hm
          exact absurd (show ("Zero Hires from Offers" : String)
            = "Application Volume Decline" from htitle) (by decide)
        · rw [h1n hz] at hm
          exact absurd hm (List.not_mem_nil a)
      · by_cases hb : bottleneckFires d
        · obtain ⟨m, hm2⟩ := h2p hb
          rw [hm2] at hm
          simp only [List.mem_singleton] at hm
          subst hm
          exact absurd (show ("Pipeline Bottleneck Detected" : String)
            = "Application Volume Decline" from htitle) (by decide)
        · rw [h2n hb] at hm
          exact absurd hm (List.not_mem_nil a)
      · by_cases hv : volumeDeclineFires d
        · exact hv
        · rw [h3n hv] at hm
          exact absurd hm (List.not_mem_nil a)
      · by_cases hs : stalePostingsFires d
        · obtain ⟨m, hm2⟩ := h4p hs
          rw [hm2] at hm
          simp only [List.mem_singleton] at hm
          subst hm
          exact absurd (show ("Stale Job Postings" : String)
            = "Application Volume Decline" from htitle) (by decide)
        · rw [h4n hs] at hm
          exact absurd hm (List.not_mem_nil a)
    · intro hd
      obtain ⟨m, hm⟩ := h3p hd
      refine ⟨{ severity := Severity.MEDIUM
                icon := "chart-down"
                title := "Application Volume Decline"
                message := m }, ?_, rfl, rfl⟩
      rw [heq, hm]
      simp [List.mem_append]
  have hnodecline45 : ¬ volumeDeclineFires trendData45 := by
    intro hv
    exact absurd ((declineProp_append_iff [] ⟨"2025-06-02", 10⟩ ⟨"2025-06-09", 5⟩).mp hv)
      (by decide)
  have hempty45 : identifyCriticalIssues trendData45 = [] := by
    obtain ⟨zh, bn, vd, sp, heq, h1p, h1n, h2p, h2n, h3p, h3n, h4p, h4n⟩ :=
      identifyCriticalIssues_shape trendData45
    have n1 : ¬ zeroHiresFires trendData45 := by
      rintro ⟨hh, ho⟩
      simp [calculateConversionFunnel, trendData45] at ho
    have n2 : ¬ bottleneckFires trendData45 := by
      intro hb
      have hnan : (calculatePipelineBreakdown trendData45.applicantsByStatus).advancedStage.percentage
          = JsNum.nan := by
        simp [trendData45, calculatePipelineBreakdown, categoryStat, JsNum.div, JsNum.mul100]
      rw [bottleneckFires, hnan] at hb
      exact Bool.noConfusion hb
    have n4 : ¬ stalePostingsFires trendData45 := by
      rintro ⟨job, hmem, hgt⟩
      simp [trendData45] at hmem
    rw [heq, h1n n1, h2n n2, h3n hnodecline45, h4n n4]
    rfl
  refine ⟨hmain, hempty45, ?_⟩
  rw [hmain trendData44]
  exact (declineProp_append_iff [] ⟨"2025-06-02", 10⟩ ⟨"2025-06-09", 4⟩).mpr (by decide)

/-- C5: the evaluator output has exactly one CRITICAL alert — whose message
contains the literal offered count — iff the funnel's offered count is
positive and its hired count is zero, and no CRITICAL alert otherwise; three
offered-not-hired records give one CRITICAL alert whose message contains
"3". -/
theorem zeroHires_critical :
    (∀ d : DashboardData,
      (0 < (calculateConversionFunnel d.applicationDetails).offered
          ∧ (calculateConversionFunnel d.applicationDetails).hired = 0 →
        (identifyCriticalIssues d).countP (fun a => a.severity == Severity.CRITICAL) = 1
        ∧ ∃ a ∈ identifyCriticalIssues d, a.severity = Severity.CRITICAL
            ∧ strContains a.message
                (toString (calculateConversionFunnel d.applicationDetails).offered))
      ∧ (¬ (0 < (calculateConversionFunnel d.applicationDetails).offered
          ∧ (calculateConversionFunnel d.applicationDetails).hired = 0) →
        (identifyCriticalIssues d).countP (fun a => a.severity == Severity.CRITICAL) = 0))
    ∧ ((identifyCriticalIssues offers3Data).countP
          (fun a => a.severity == Severity.CRITICAL) = 1
        ∧ ∃ a ∈ identifyCriticalIssues offers3Data, a.severity = Severity.CRITICAL
            ∧ strContains a.message "3") := by
  have hmain : ∀ d : DashboardData,
      (0 < (calculateConversionFunnel d.applicationDetails).offered
          ∧ (calculateConversionFunnel d.applicationDetails).hired = 0 →
        (identifyCriticalIssues d).countP (fun a => a.severity == Severity.CRITICAL) = 1
        ∧ ∃ a ∈ identifyCriticalIssues d, a.severity = Severity.CRITICAL
            ∧ strContains a.message
                (toString (calculateConversionFunnel d.applicationDetails).offered))
      ∧ (¬ (0 < (calculateConversionFunnel d.applicationDetails).offered
          ∧ (calculateConversionFunnel d.applicationDetails).hired = 0) →
        (identifyCriticalIssues d).countP (fun a => a.severity == Severity.CRITICAL) = 0) := by
    intro d
    obtain ⟨zh, bn, vd, sp, heq, h1p, h1n, h2p, h2n, h3p, h3n, h4p, h4n⟩ :=
      identifyCriticalIssues_shape d
    have hbn0 : bn.countP (fun a => a.severity == Severity.CRITICAL) = 0 := by
      rw [List.countP_eq_zero]
      intro a ha
      by_cases hb : bottleneckFires d
      · obtain ⟨m, hm⟩ := h2p hb
        rw [hm] at ha
        simp only [List.mem_singleton] at ha
        subst ha
        exact (by decide : ¬(Severity.HIGH == Severity.CRITICAL) = true)
      · rw [h2n hb] at ha
        exact absurd ha (List.not_mem_nil a)
    have hvd0 : vd.countP (fun a => a.severity == Severity.CRITICAL) = 0 := by
      rw [List.countP_eq_zero]
      intro a ha
      by_cases hv : volumeDeclineFires d
      · obtain ⟨m, hm⟩ := h3p hv
        rw [hm] at ha
        simp only [List.mem_singleton] at ha
        subst ha
        exact (by decide : ¬(Severity.MEDIUM == Severity.CRITICAL) = true)
      · rw [h3n hv] at ha
        exact absurd ha (List.not_mem_nil a)
    have hsp0 : sp.countP (fun a => a.severity == Severity.CRITICAL) = 0 := by
      rw [List.countP_eq_zero]
      intro a ha
      by_cases hs : stalePostingsFires d
      · obtain ⟨m, hm⟩ := h4p hs
        rw [hm] at ha
        simp only [List.mem_singleton] at ha
        subst ha
        exact (by decide : ¬(Severity.MEDIUM == Severity.CRITICAL) = true)
      · rw [h4n hs] at ha
        exact absurd ha (List.not_mem_nil a)
    constructor
    · rintro ⟨ho, hh⟩
      have hz : zeroHiresFires d := ⟨hh, ho⟩
      constructor
      · rw [heq, List.countP_append, List.countP_append, List.countP_append,
          h1p hz, hbn0, hvd0, hsp0]
        simp [List.countP_cons]
      · refine ⟨{ severity := Severity.CRITICAL
                  icon := "siren"
                  title := "Zero Hires from Offers"
                  message := toString (calculateConversionFunnel d.applicationDetails).offered
                    ++ " offers have been extended but 0 hires have been completed. Immediate action required to identify and resolve onboarding bottlenecks." },
          ?_, rfl, ?_⟩
        · rw [heq, h1p hz]
          simp [List.mem_append]
        · exact ⟨"",
            " offers have been extended but 0 hires have been completed. Immediate action required to identify and resolve onboarding bottlenecks.",
            rfl⟩
    · intro hnot
      have hz : ¬ zeroHiresFires d := fun hzf => hnot ⟨hzf.2, hzf.1⟩
      rw [heq, List.countP_append, List.countP_append, List.countP_append,
        h1n hz, hbn0, hvd0, hsp0]
      rfl
  have hoff : 0 < (calculateConversionFunnel offers3Data.applicationDetails).offered
      ∧ (calculateConversionFunnel offers3Data.applicationDetails).hired = 0 := by
    constructor
    · decide
    · rfl
  obtain ⟨hcount, a, hmem, hsev, hsub⟩ := (hmain offers3Data).1 hoff
  exact ⟨hmain, hcount, a, hmem, hsev, hsub⟩

/-- C4 witness: the rule-firing equivalence applied to the [10, 4] series. -/
theorem volumeDecline_iff_witness :
    ∃ a ∈ identifyCriticalIssues trendData44,
      a.title = "Application Volume Decline" ∧ a.severity = Severity.MEDIUM :=
  (volumeDecline_iff.1 trendData44).mpr
    ((declineProp_append_iff [] ⟨"2025-06-02", 10⟩ ⟨"2025-06-09", 4⟩).mpr (by decide))

/-- C5 witness: the positive half applied to the three-offers snapshot. -/
theorem zeroHires_critical_witness :
    (identifyCriticalIssues offers3Data).countP
      (fun a => a.severity == Severity.CRITICAL) = 1 :=
  ((zeroHires_critical.1 offers3Data).1 ⟨by decide, rfl⟩).1

/-- C6 witness: the order statement applied to a concrete snapshot. -/
theorem identifyCriticalIssues_order_witness :
    ((identifyCriticalIssues offers3Data).map Alert.title).Sublist
      ["Zero Hires from Offers", "Pipeline Bottleneck Detected",
       "Application Volume Decline", "Stale Job Postings"] :=
  (identifyCriticalIssues_order_and_empty offers3Data).1
